import Mathlib

/-!
Shallow embedding of the nutrition data model and aggregation engine of the
`helper` repository (a diet-tracking React app), together with theorems about
the properties its specification states.

Numbers that are JavaScript `number`s in the source are modelled as rationals
(`ℚ`); the arithmetic the claims concern (sums, products, quotients, rounding,
clamping) is exact on the inputs involved.  Stateful React code is modelled by
explicit state passing: the log store is a function from date strings to
optional daily logs, and event handlers become pure functions from the old
state (plus the collaborator's response) to the new state.
-/

namespace Helper

/-- `Ingredient` from `src/types.ts`: one ingredient's cooked weight and
macro/calorie values (a Nutrient Record in the spec's vocabulary). -/
structure Ingredient where
  id : String
  name : String
  weight : ℚ
  calories : ℚ
  protein : ℚ
  carbs : ℚ
  fat : ℚ
  addedOilCalories : ℚ
  notes : Option String := none
  deriving Repr, DecidableEq

/-- `Meal` from `src/types.ts`. -/
structure Meal where
  id : String
  name : String
  timestamp : ℕ
  items : List Ingredient
  cookingMethodNote : Option String := none
  isSkipped : Option Bool := none
  deriving Repr, DecidableEq

/-- `BodyMetrics` from `src/types.ts` (nullable measurements). -/
structure BodyMetrics where
  weight : Option ℚ
  waist : Option ℚ
  thigh : Option ℚ
  calf : Option ℚ
  deriving Repr, DecidableEq

/-- `DailyLog` from `src/types.ts`. -/
structure DailyLog where
  date : String
  meals : List Meal
  metrics : BodyMetrics
  dailyNotes : Option String := none
  deriving Repr, DecidableEq

/-- `MacroGoals` from `src/types.ts`. -/
structure MacroGoals where
  calories : ℚ
  protein : ℚ
  carbsPercentage : ℚ
  fatPercentage : ℚ
  deriving Repr, DecidableEq

/-- `DEFAULT_GOALS` from `src/types.ts`. -/
def DEFAULT_GOALS : MacroGoals :=
  { calories := 1350
    protein := 75
    carbsPercentage := 55/100
    fatPercentage := 25/100 }

/-- The first entry of `FIXED_BREAKFAST_ITEMS` in `src/types.ts` (the egg). -/
def eggItem : Ingredient :=
  { id := "fixed-egg"
    name := "Boiled Egg"
    weight := 50
    calories := 70
    protein := 6
    carbs := 6/10
    fat := 5
    addedOilCalories := 0
    notes := some "Standard large egg" }

/-- The second entry of `FIXED_BREAKFAST_ITEMS` in `src/types.ts` (the milk). -/
def milkItem : Ingredient :=
  { id := "fixed-milk"
    name := "Milk (Whole)"
    weight := 250
    calories := 150
    protein := 8
    carbs := 12
    fat := 8
    addedOilCalories := 0
    notes := some "250ml" }

/-- `FIXED_BREAKFAST_ITEMS` from `src/types.ts`: the two default breakfast
Nutrient Records (egg and milk). -/
def FIXED_BREAKFAST_ITEMS : List Ingredient := [eggItem, milkItem]

/-- The totals accumulator of `MacroProgress` (`src/components/MacroProgress.tsx`,
lines 11-20): `{ calories, protein, carbs, fat, oil }`. -/
structure Totals where
  calories : ℚ
  protein : ℚ
  carbs : ℚ
  fat : ℚ
  oil : ℚ
  deriving Repr, DecidableEq

/-- One step of the accumulation in `MacroProgress` lines 12-18: the mutation of
`acc` by one item, written functionally. -/
def addItemToTotals (acc : Totals) (item : Ingredient) : Totals :=
  { calories := acc.calories + item.calories
    protein := acc.protein + item.protein
    carbs := acc.carbs + item.carbs
    fat := acc.fat + item.fat
    oil := acc.oil + item.addedOilCalories }

/-- The Macro Aggregator: `log.meals.reduce(...)` of `MacroProgress` lines 11-20.
The outer `reduce` over meals performs, for each meal, a `forEach` over its
items accumulating into `acc`; both become left folds. -/
def macroTotal (log : DailyLog) : Totals :=
  log.meals.foldl (fun acc meal => meal.items.foldl addItemToTotals acc)
    { calories := 0, protein := 0, carbs := 0, fat := 0, oil := 0 }

/-- All Nutrient Records of a log, in order: every item of every meal. -/
def allRecords (log : DailyLog) : List Ingredient :=
  (log.meals.map Meal.items).flatten

/-- Spec-side totals, following the spec's words: the elementwise sum of every
Nutrient Record across every Meal in the log (for comparison with the
implementation's `macroTotal`). -/
def totalsSpec (log : DailyLog) : Totals :=
  { calories := ((allRecords log).map Ingredient.calories).sum
    protein := ((allRecords log).map Ingredient.protein).sum
    carbs := ((allRecords log).map Ingredient.carbs).sum
    fat := ((allRecords log).map Ingredient.fat).sum
    oil := ((allRecords log).map Ingredient.addedOilCalories).sum }

/-- The Item Rescaler: the `field === 'weight'` branch of `handleUpdateItemDetails`
(`src/App.tsx`, lines 173-188).  `ratio` is `newWeight / item.weight` when
`item.weight > 0` and `1` otherwise; a record with `weight === 0` is returned
with only its weight replaced. -/
def rescaleItem (item : Ingredient) (newWeight : ℚ) : Ingredient :=
  let ratio : ℚ := if 0 < item.weight then newWeight / item.weight else 1
  if item.weight = 0 then { item with weight := newWeight }
  else
    { item with
      weight := newWeight
      calories := item.calories * ratio
      protein := item.protein * ratio
      carbs := item.carbs * ratio
      fat := item.fat * ratio
      addedOilCalories := item.addedOilCalories * ratio }

/-- JavaScript `Math.round` on the rationals: round half toward positive
infinity, i.e. the floor of `q + 1/2`. -/
def jsRound (q : ℚ) : ℤ := Rat.floor (q + 1/2)

/-- `targetCarbs` of `MacroProgress` line 26:
`Math.round((targetCalories * goals.carbsPercentage) / 4)`. -/
def targetCarbs (goals : MacroGoals) : ℤ :=
  jsRound (goals.calories * goals.carbsPercentage / 4)

/-- `targetFat` of `MacroProgress` line 27:
`Math.round((targetCalories * goals.fatPercentage) / 9)`. -/
def targetFat (goals : MacroGoals) : ℤ :=
  jsRound (goals.calories * goals.fatPercentage / 9)

/-- `currentCarbRatio` of `MacroProgress` lines 30-31:
`total.calories > 0 ? (total.carbs * 4 / total.calories) * 100 : 0`. -/
def currentCarbRatio (t : Totals) : ℚ :=
  if 0 < t.calories then t.carbs * 4 / t.calories * 100 else 0

/-- `isCarbRatioGood` of `MacroProgress` line 32: `currentCarbRatio >= 50`. -/
def isCarbRatioGood (t : Totals) : Bool :=
  decide (50 ≤ currentCarbRatio t)

/-- `getPercent` of `MacroProgress` line 35:
`Math.min(100, Math.max(0, (val / target) * 100))`.  (On `ℚ` division by zero
yields `0`, so the clamp output is total here as well.) -/
def getPercent (val target : ℚ) : ℚ :=
  min 100 (max 0 (val / target * 100))

/-- The calories over-budget test of `MacroProgress` line 60:
`total.calories > targetCalories` selects the warning colour. -/
def isOverBudget (t : Totals) (goals : MacroGoals) : Bool :=
  decide (goals.calories < t.calories)

/-- The log store: React state `logs : Record<string, DailyLog>` of
`src/App.tsx`, modelled as a map from date strings to optional logs. -/
def LogStore : Type := String → Option DailyLog

/-- `getDailyLog` from `src/App.tsx` lines 68-104: return the stored log for
`date` if present, otherwise build the default log with the four canonical
meal slots (breakfast pre-populated with the fixed items, the rest empty).
The source stamps each meal with `Date.now()`; that clock read is the `now`
parameter here. -/
def getDailyLog (logs : LogStore) (date : String) (now : ℕ) : DailyLog :=
  match logs date with
  | some l => l
  | none =>
    { date := date
      meals :=
        [ { id := "breakfast-" ++ date
            name := "早餐"
            timestamp := now
            items := FIXED_BREAKFAST_ITEMS
            cookingMethodNote := some "水煮/生鲜" },
          { id := "lunch-" ++ date
            name := "午餐"
            timestamp := now
            items := [] },
          { id := "dinner-" ++ date
            name := "晚餐"
            timestamp := now
            items := [] },
          { id := "snack-" ++ date
            name := "加餐"
            timestamp := now
            items := [] } ]
      metrics := { weight := none, waist := none, thigh := none, calf := none } }

/-- `updateLog` from `src/App.tsx` lines 108-110:
`setLogs(prev => ({ ...prev, [newLog.date]: newLog }))`. -/
def updateLog (logs : LogStore) (newLog : DailyLog) : LogStore :=
  fun d => if d = newLog.date then some newLog else logs d

/-- An ingredient as it appears in the collaborator's JSON (no `id` field; ids
are added by the consuming side in `parseFoodEntry`). -/
structure RawIngredient where
  name : String
  weight : ℚ
  calories : ℚ
  protein : ℚ
  carbs : ℚ
  fat : ℚ
  addedOilCalories : ℚ
  notes : Option String := none
  deriving Repr, DecidableEq

/-- Attach a freshly generated id to a raw extracted ingredient
(`src/services/geminiService.ts` lines 104-107). -/
def RawIngredient.withId (r : RawIngredient) (newId : String) : Ingredient :=
  { id := newId
    name := r.name
    weight := r.weight
    calories := r.calories
    protein := r.protein
    carbs := r.carbs
    fat := r.fat
    addedOilCalories := r.addedOilCalories
    notes := r.notes }

/-- Outcome of `JSON.parse` on a (non-empty) collaborator response body:
either the parse (or the subsequent field access) throws, or it yields an
object whose `items` and `cookingAnalysis` members may each be absent. -/
inductive ParsedBody where
  | thrown (msg : String)
  | obj (items : Option (List RawIngredient)) (cookingAnalysis : Option String)
  deriving Repr, DecidableEq

/-- The response-handling tail of `parseFoodEntry`
(`src/services/geminiService.ts` lines 102-114):

* `JSON.parse(response.text || "\x7b\x7d")` — an empty response text is
  replaced by the empty-object literal, which parses to an object with both
  members absent; a non-empty text is handed to the parser (`jsonParse`),
  which may throw;
* `result.items?.map(item => ({...item, id: ...})) || []` — absent `items`
  becomes the empty list, present items get generated ids (`genId` models the
  `Math.random()` id source, indexed by position);
* `result.cookingAnalysis || "无额外烹饪说明"` — an absent (or empty) analysis
  string is replaced by the default note;
* the surrounding `catch` rethrows `error.message || "分析食物失败，请重试。"`. -/
def parseFoodEntry (jsonParse : String → ParsedBody) (genId : ℕ → String)
    (responseText : String) : Except String (List Ingredient × String) :=
  match (if responseText = "" then ParsedBody.obj none none
         else jsonParse responseText) with
  | ParsedBody.thrown msg =>
      Except.error (if msg = "" then "分析食物失败，请重试。" else msg)
  | ParsedBody.obj items cooking =>
      Except.ok
        (((items.getD []).enum.map fun p => (p.2).withId (genId p.1)),
         (match cooking with
          | some s => if s = "" then "无额外烹饪说明" else s
          | none => "无额外烹饪说明"))

/-- The success path of `handleAddFood` (`src/App.tsx` lines 139-151): append
the extracted items to the target meal and accumulate the cooking note
(`m.cookingMethodNote ? note + "; " + cookingAnalysis : cookingAnalysis`,
where an empty existing note is falsy). -/
def appendExtraction (log : DailyLog) (mealId : String)
    (items : List Ingredient) (cookingAnalysis : String) : DailyLog :=
  { log with
    meals := log.meals.map fun m =>
      if m.id = mealId then
        { m with
          items := m.items ++ items
          cookingMethodNote :=
            some (match m.cookingMethodNote with
                  | some note =>
                      if note = "" then cookingAnalysis
                      else note ++ "; " ++ cookingAnalysis
                  | none => cookingAnalysis) }
      else m }

/-- `handleAddFood` from `src/App.tsx` lines 133-162, as a pure function of the
extraction outcome and the current log: on success the new log (no alert), on
failure the unchanged log plus the single alert message
`` `无法识别食物: ${e.message}` ``. -/
def handleAddFood (parseResult : Except String (List Ingredient × String))
    (currentLog : DailyLog) (mealId : String) : DailyLog × Option String :=
  match parseResult with
  | Except.error msg => (currentLog, some ("无法识别食物: " ++ msg))
  | Except.ok (items, cookingAnalysis) =>
      (appendExtraction currentLog mealId items cookingAnalysis, none)

/-- The totals of the default breakfast scenario:
`{calories: 220, protein: 14, carbs: 12.6, fat: 13, addedOil: 0}`. -/
def breakfastTotals : Totals :=
  { calories := 220, protein := 14, carbs := 63/5, fat := 13, oil := 0 }

/-- Totals with zero calories (nothing logged). -/
def zeroTotals : Totals :=
  { calories := 0, protein := 0, carbs := 0, fat := 0, oil := 0 }

/-- Two demo ingredients with simple integer values, used to exhibit a
reordered log. -/
def demoItemA : Ingredient :=
  { id := "a", name := "rice", weight := 100, calories := 130, protein := 3
    carbs := 28, fat := 1, addedOilCalories := 0 }

def demoItemB : Ingredient :=
  { id := "b", name := "chicken", weight := 80, calories := 90, protein := 17
    carbs := 0, fat := 2, addedOilCalories := 10 }

def demoMealAB : Meal :=
  { id := "lunch-d", name := "午餐", timestamp := 0, items := [demoItemA, demoItemB] }

def demoMealBA : Meal :=
  { id := "lunch-d", name := "午餐", timestamp := 0, items := [demoItemB, demoItemA] }

def demoMealEmpty : Meal :=
  { id := "dinner-d", name := "晚餐", timestamp := 0, items := [] }

def demoMetrics : BodyMetrics :=
  { weight := none, waist := none, thigh := none, calf := none }

def demoLogOrdered : DailyLog :=
  { date := "2026-03-01", meals := [demoMealAB, demoMealEmpty], metrics := demoMetrics }

def demoLogShuffled : DailyLog :=
  { date := "2026-03-01", meals := [demoMealEmpty, demoMealBA], metrics := demoMetrics }

/-- A minimal concrete log for the store-update witness. -/
def demoFrameLog : DailyLog :=
  { date := "2026-02-02", meals := [], metrics := demoMetrics }

lemma foldl_addItemToTotals (l : List Ingredient) (acc : Totals) :
    l.foldl addItemToTotals acc =
      { calories := acc.calories + (l.map Ingredient.calories).sum
        protein := acc.protein + (l.map Ingredient.protein).sum
        carbs := acc.carbs + (l.map Ingredient.carbs).sum
        fat := acc.fat + (l.map Ingredient.fat).sum
        oil := acc.oil + (l.map Ingredient.addedOilCalories).sum } := by
  induction l generalizing acc with
  | nil => simp
  | cons x xs ih =>
      simp only [List.foldl_cons, List.map_cons, List.sum_cons, ih, addItemToTotals]
      simp only [Totals.mk.injEq]
      refine ⟨?_, ?_, ?_, ?_, ?_⟩ <;> ring

lemma foldl_meals_totals (ms : List Meal) (acc : Totals) :
    ms.foldl (fun acc meal => meal.items.foldl addItemToTotals acc) acc =
      { calories := acc.calories + (((ms.map Meal.items).flatten).map Ingredient.calories).sum
        protein := acc.protein + (((ms.map Meal.items).flatten).map Ingredient.protein).sum
        carbs := acc.carbs + (((ms.map Meal.items).flatten).map Ingredient.carbs).sum
        fat := acc.fat + (((ms.map Meal.items).flatten).map Ingredient.fat).sum
        oil := acc.oil + (((ms.map Meal.items).flatten).map Ingredient.addedOilCalories).sum } := by
  induction ms generalizing acc with
  | nil => simp
  | cons m ms ih =>
      rw [List.foldl_cons, foldl_addItemToTotals, ih]
      simp only [List.map_cons, List.flatten_cons, List.map_append, List.sum_append,
        Totals.mk.injEq]
      refine ⟨?_, ?_, ?_, ?_, ?_⟩ <;> ring

/-- The Macro Aggregator computes exactly the spec's elementwise sum. -/
lemma macroTotal_eq_totalsSpec (log : DailyLog) : macroTotal log = totalsSpec log := by
  simp [macroTotal, totalsSpec, allRecords, foldl_meals_totals]

lemma flatten_perm {α : Type} {L₁ L₂ : List (List α)} (h : L₁.Perm L₂) :
    L₁.flatten.Perm L₂.flatten := by
  induction h with
  | nil => rfl
  | cons x _ ih => simpa using ih.append_left x
  | swap x y l =>
      simp only [List.flatten_cons]
      rw [← List.append_assoc, ← List.append_assoc]
      exact List.perm_append_comm.append_right _
  | trans _ _ ih₁ ih₂ => exact ih₁.trans ih₂

lemma forall₂_items_flatten {ms₁ ms₂ : List Meal}
    (h : List.Forall₂ (fun m₁ m₂ => m₁.items.Perm m₂.items) ms₁ ms₂) :
    ((ms₁.map Meal.items).flatten).Perm ((ms₂.map Meal.items).flatten) := by
  induction h with
  | nil => rfl
  | cons h₁ _ ih =>
      simp only [List.map_cons, List.flatten_cons]
      exact h₁.append ih

/-- C1: the Macro Aggregator produces, for every Daily Log, the elementwise sum
of every Nutrient Record across every Meal (meals with zero items contribute
zero because they add no records; the `isSkipped` flag is not consulted, so a
skipped meal with residual items still contributes them — the second conjunct
sets the flag arbitrarily without changing the totals); and on the default log
(Breakfast = the two fixed records, other meals empty) the totals are
`{calories: 220, protein: 14, carbs: 12.6, fat: 13, addedOil: 0}`. -/
theorem macroAggregator_elementwise_sum :
    (∀ log : DailyLog, macroTotal log = totalsSpec log) ∧
    (∀ (log : DailyLog) (f : Meal → Option Bool),
      macroTotal { log with meals := log.meals.map fun m => { m with isSkipped := f m } } =
        macroTotal log) ∧
    macroTotal (getDailyLog (fun _ => none) "2026-10-12" 0) = breakfastTotals := by
  refine ⟨macroTotal_eq_totalsSpec, ?_, ?_⟩
  · intro log f
    rw [macroTotal_eq_totalsSpec, macroTotal_eq_totalsSpec]
    simp [totalsSpec, allRecords, List.map_map, Function.comp_def]
  · norm_num [macroTotal, getDailyLog, FIXED_BREAKFAST_ITEMS, eggItem, milkItem,
      addItemToTotals, breakfastTotals]

/-- C2 counterexample: the round-trip law fails for `w2 = 0`.  The egg record
has weight `50 > 0` and `70` calories; rescaling it to weight `0` multiplies
every macro by `0`, and rescaling back to `50` takes the zero-weight branch,
which leaves the zeroed macros untouched, so the original calories are not
reproduced (the discrepancy is `70`, beyond any floating-point tolerance). -/
theorem rescale_roundTrip_fails_at_zero :
    0 < eggItem.weight ∧
    (rescaleItem (rescaleItem eggItem 0) eggItem.weight).calories = 0 ∧
    eggItem.calories = 70 ∧
    (rescaleItem (rescaleItem eggItem 0) eggItem.weight).calories ≠ eggItem.calories := by
  norm_num [rescaleItem, eggItem]

/-- C2 (amended): for every Nutrient Record with weight `w1 > 0` and every
positive weight `w2 > 0`, rescaling to `w2` and back to `w1` reproduces the
original record exactly (in particular all macro values; on `ℚ` no tolerance is
needed).  The rescaler is a pure function in this embedding, so the input
record is not mutated. -/
theorem rescale_roundTrip (item : Ingredient) (w2 : ℚ)
    (h1 : 0 < item.weight) (h2 : 0 < w2) :
    rescaleItem (rescaleItem item w2) item.weight = item := by
  have hw : item.weight ≠ 0 := ne_of_gt h1
  have hw2 : w2 ≠ 0 := ne_of_gt h2
  cases item with
  | mk id name weight calories protein carbs fat addedOilCalories notes =>
      simp only at h1 hw
      simp only [rescaleItem, if_pos h1, if_neg hw, if_pos h2, if_neg hw2,
        Ingredient.mk.injEq]
      and_intros <;> first
        | trivial
        | field_simp

/-- C2 witness: the round-trip at the egg record and `w2 = 100`. -/
theorem rescale_roundTrip_witness :
    0 < eggItem.weight ∧ (0 : ℚ) < 100 ∧
    rescaleItem (rescaleItem eggItem 100) eggItem.weight = eggItem :=
  ⟨by norm_num [eggItem], by norm_num,
   rescale_roundTrip eggItem 100 (by norm_num [eggItem]) (by norm_num)⟩

/-- C3: rescaling a record whose weight is `0` to any `w2` replaces only the
weight field; calories, protein, carbs, fat and addedOilCalories are exactly
those of the input (the zero-weight branch returns before any division, so no
division by zero occurs — and on `ℚ` no NaN exists to propagate). -/
theorem rescale_zeroWeight (item : Ingredient) (w2 : ℚ) (h : item.weight = 0) :
    rescaleItem item w2 = { item with weight := w2 } := by
  simp [rescaleItem, h]

/-- C3 witness: a zero-weight variant of the egg record rescaled to `120`. -/
theorem rescale_zeroWeight_witness :
    ({ eggItem with weight := 0 } : Ingredient).weight = 0 ∧
    rescaleItem { eggItem with weight := 0 } 120 =
      { { eggItem with weight := 0 } with weight := 120 } :=
  ⟨rfl, rescale_zeroWeight { eggItem with weight := 0 } 120 rfl⟩

/-- C4: the Goal Evaluator's carbohydrate-energy ratio equals
`100 × (carbs × 4) / calories` when `calories > 0` and is exactly `0` when
`calories = 0` (no division by zero is performed: the zero case is the `else`
branch of the conditional); the "on target" flag holds exactly when the ratio
is at least `50`; and the clamped display ratio `getPercent` always lies in
`[0, 100]`, however large the actual value. -/
theorem goalEvaluator_safety :
    (∀ t : Totals, 0 < t.calories →
      currentCarbRatio t = 100 * (t.carbs * 4) / t.calories) ∧
    (∀ t : Totals, t.calories = 0 → currentCarbRatio t = 0) ∧
    (∀ t : Totals, isCarbRatioGood t = true ↔ 50 ≤ currentCarbRatio t) ∧
    (∀ val target : ℚ, 0 ≤ getPercent val target ∧ getPercent val target ≤ 100) := by
  refine ⟨?_, ?_, ?_, ?_⟩
  · intro t ht
    rw [currentCarbRatio, if_pos ht]
    ring
  · intro t ht
    rw [currentCarbRatio, if_neg (by rw [ht]; exact lt_irrefl 0)]
  · intro t
    simp [isCarbRatioGood]
  · intro val target
    exact ⟨le_min (by norm_num) (le_max_left 0 _), min_le_left 100 _⟩

/-- C4 witness: the ratio clauses at the breakfast totals and at zero totals. -/
theorem goalEvaluator_safety_witness :
    0 < breakfastTotals.calories ∧
    currentCarbRatio breakfastTotals =
      100 * (breakfastTotals.carbs * 4) / breakfastTotals.calories ∧
    currentCarbRatio zeroTotals = 0 :=
  ⟨by norm_num [breakfastTotals],
   goalEvaluator_safety.1 breakfastTotals (by norm_num [breakfastTotals]),
   goalEvaluator_safety.2.1 zeroTotals rfl⟩

/-- C5: with the default goals (1350 kcal, 75 g protein, 0.55 carb-share,
0.25 fat-share), the derived gram targets are
`targetCarbsGrams = round(1350 × 0.55 / 4) = 186` and
`targetFatGrams = round(1350 × 0.25 / 9) = 38`; against the breakfast totals
`{calories: 220, carbs: 12.6}` the carbohydrate-energy ratio is
`252/11 ≈ 22.9%`, and the over-budget flag (`220 > 1350`) is false. -/
theorem goalEvaluator_default_scenario :
    targetCarbs DEFAULT_GOALS = 186 ∧
    targetFat DEFAULT_GOALS = 38 ∧
    currentCarbRatio breakfastTotals = 252/11 ∧
    (229/10 : ℚ) < currentCarbRatio breakfastTotals ∧
    currentCarbRatio breakfastTotals < (2291/100 : ℚ) ∧
    isOverBudget breakfastTotals DEFAULT_GOALS = false := by
  refine ⟨?_, ?_, ?_, ?_, ?_, ?_⟩
  · show ⌊(DEFAULT_GOALS.calories * DEFAULT_GOALS.carbsPercentage / 4 + 1/2 : ℚ)⌋ = 186
    rw [Int.floor_eq_iff]
    norm_num [DEFAULT_GOALS]
  · show ⌊(DEFAULT_GOALS.calories * DEFAULT_GOALS.fatPercentage / 9 + 1/2 : ℚ)⌋ = 38
    rw [Int.floor_eq_iff]
    norm_num [DEFAULT_GOALS]
  · norm_num [currentCarbRatio, breakfastTotals]
  · norm_num [currentCarbRatio, breakfastTotals]
  · norm_num [currentCarbRatio, breakfastTotals]
  · norm_num [isOverBudget, breakfastTotals, DEFAULT_GOALS]

/-- C6 counterexample: an empty collaborator response is not treated as the
extraction-failed error — it is coerced into a successful result with an empty
item list and the default cooking-analysis string.  The parser argument here
throws on every input, so the success can only come from the
`response.text || "\x7b\x7d"` coercion bypassing it. -/
theorem extraction_empty_response_coerced :
    parseFoodEntry (fun _ => ParsedBody.thrown "network error") (fun _ => "id0") "" =
      Except.ok ([], "无额外烹饪说明") := rfl

/-- C6 (amended): a collaborator response whose body fails to parse (the parse
throws) is treated as the single extraction-failed error carrying a
human-readable cause (the thrown message, or the generic retry message when
that is empty); but an *empty* response is silently coerced into a successful
result with an empty item list and the default cooking-analysis string, and a
non-empty response that parses to an object missing its fields is likewise
defaulted to that same successful result, not treated as a failure. -/
theorem extraction_failure_behavior :
    (∀ (jsonParse : String → ParsedBody) (genId : ℕ → String) (txt msg : String),
      txt ≠ "" → jsonParse txt = ParsedBody.thrown msg →
      parseFoodEntry jsonParse genId txt =
        Except.error (if msg = "" then "分析食物失败，请重试。" else msg)) ∧
    (∀ (jsonParse : String → ParsedBody) (genId : ℕ → String),
      parseFoodEntry jsonParse genId "" = Except.ok ([], "无额外烹饪说明")) ∧
    (∀ (jsonParse : String → ParsedBody) (genId : ℕ → String) (txt : String),
      txt ≠ "" → jsonParse txt = ParsedBody.obj none none →
      parseFoodEntry jsonParse genId txt = Except.ok ([], "无额外烹饪说明")) := by
  refine ⟨?_, ?_, ?_⟩
  · intro jsonParse genId txt msg htxt hthrow
    rw [parseFoodEntry, if_neg htxt, hthrow]
  · intro jsonParse genId
    rfl
  · intro jsonParse genId txt htxt hobj
    rw [parseFoodEntry, if_neg htxt, hobj]
    rfl

/-- C6 witness: a parser that throws a network-error message on the non-empty
response text `"x"` yields that error; an empty response yields the coerced
default success; and a parser yielding a fieldless object on the non-empty
response text `"y"` yields that same coerced success. -/
theorem extraction_failure_behavior_witness :
    ("x" : String) ≠ "" ∧ ("y" : String) ≠ "" ∧
    parseFoodEntry (fun _ => ParsedBody.thrown "网络错误") (fun _ => "a") "x" =
      Except.error "网络错误" ∧
    parseFoodEntry (fun _ => ParsedBody.obj none none) (fun _ => "a") "" =
      Except.ok ([], "无额外烹饪说明") ∧
    parseFoodEntry (fun _ => ParsedBody.obj none none) (fun _ => "a") "y" =
      Except.ok ([], "无额外烹饪说明") := by
  refine ⟨by decide, by decide, ?_, extraction_failure_behavior.2.1 _ _,
    extraction_failure_behavior.2.2 (fun _ => ParsedBody.obj none none)
      (fun _ => "a") "y" (by decide) rfl⟩
  have h := extraction_failure_behavior.1 (fun _ => ParsedBody.thrown "网络错误")
    (fun _ => "a") "x" "网络错误" (by decide) rfl
  simpa using h

/-- C7: when the extraction attempt fails (for example with a network error),
`handleAddFood` returns the current log unchanged — so every meal's item list
is exactly what it was, nothing is partially applied — together with exactly
one descriptive alert message embedding the cause. -/
theorem addFood_failure_frame :
    ∀ (log : DailyLog) (mealId msg : String),
      handleAddFood (Except.error msg) log mealId =
        (log, some ("无法识别食物: " ++ msg)) :=
  fun _ _ _ => rfl

/-- C8: the Macro Aggregator is invariant under permuting the items within
each meal (`ms` is `l₁.meals` with each meal's items permuted) and under
permuting the meals of the log (`l₂.meals` is a permutation of `ms`). -/
theorem macroAggregator_perm_invariant (l₁ l₂ : DailyLog) (ms : List Meal)
    (hitems : List.Forall₂ (fun m₁ m₂ => m₁.items.Perm m₂.items) l₁.meals ms)
    (hmeals : ms.Perm l₂.meals) :
    macroTotal l₁ = macroTotal l₂ := by
  have hp : ((l₁.meals.map Meal.items).flatten).Perm ((l₂.meals.map Meal.items).flatten) :=
    (forall₂_items_flatten hitems).trans (flatten_perm (hmeals.map Meal.items))
  have key : ∀ g : Ingredient → ℚ,
      ((l₁.meals.map Meal.items).flatten.map g).sum =
        ((l₂.meals.map Meal.items).flatten.map g).sum :=
    fun g => (hp.map g).sum_eq
  rw [macroTotal_eq_totalsSpec, macroTotal_eq_totalsSpec]
  simp only [totalsSpec, allRecords, Totals.mk.injEq]
  exact ⟨key _, key _, key _, key _, key _⟩

/-- C8 witness: swapping the two items of the lunch meal and then swapping the
two meals of the log leaves the totals unchanged. -/
theorem macroAggregator_perm_invariant_witness :
    macroTotal demoLogOrdered = macroTotal demoLogShuffled :=
  macroAggregator_perm_invariant demoLogOrdered demoLogShuffled
    [demoMealBA, demoMealEmpty]
    (List.Forall₂.cons (List.Perm.swap demoItemB demoItemA [])
      (List.Forall₂.cons (List.Perm.refl []) List.Forall₂.nil))
    (List.Perm.swap demoMealEmpty demoMealBA [])

/-- C9: on first access to a date (`logs date = none`) the factory returns a
log for that date exposing exactly the four canonical meal slots in order,
with ids derived deterministically from the date and the slot key (hence
independent of the clock reading `now`), Breakfast pre-populated with the two
fixed default records and the other slots empty; and after the caller upserts
that log, re-accessing the same date returns the very same log (idempotent
repeated access).  The factory itself is a pure function of the store: it
returns a log without modifying the store (no store output exists). -/
theorem getDailyLog_first_access (logs : LogStore) (date : String) (now : ℕ)
    (h : logs date = none) :
    (getDailyLog logs date now).date = date ∧
    (getDailyLog logs date now).meals.map Meal.id =
      ["breakfast-" ++ date, "lunch-" ++ date, "dinner-" ++ date, "snack-" ++ date] ∧
    (getDailyLog logs date now).meals.map Meal.name = ["早餐", "午餐", "晚餐", "加餐"] ∧
    (getDailyLog logs date now).meals.map Meal.items =
      [FIXED_BREAKFAST_ITEMS, [], [], []] ∧
    (∀ now' : ℕ, (getDailyLog logs date now').meals.map Meal.id =
      (getDailyLog logs date now).meals.map Meal.id) ∧
    (∀ now' : ℕ,
      getDailyLog (updateLog logs (getDailyLog logs date now)) date now' =
        getDailyLog logs date now) := by
  refine ⟨?_, ?_, ?_, ?_, ?_, ?_⟩
  · simp [getDailyLog, h]
  · simp [getDailyLog, h]
  · simp [getDailyLog, h]
  · simp [getDailyLog, h]
  · intro now'
    simp [getDailyLog, h]
  · intro now'
    have hdate : (getDailyLog logs date now).date = date := by simp [getDailyLog, h]
    rw [getDailyLog]
    rw [show updateLog logs (getDailyLog logs date now) date =
          some (getDailyLog logs date now) by simp [updateLog, hdate]]

/-- C9 witness: first access to 2026-01-01 on an empty store. -/
theorem getDailyLog_first_access_witness :
    (getDailyLog (fun _ => none) "2026-01-01" 0).meals.map Meal.id =
      ["breakfast-" ++ "2026-01-01", "lunch-" ++ "2026-01-01",
       "dinner-" ++ "2026-01-01", "snack-" ++ "2026-01-01"] ∧
    (getDailyLog (fun _ => none) "2026-01-01" 0).meals.map Meal.items =
      [FIXED_BREAKFAST_ITEMS, [], [], []] :=
  ⟨(getDailyLog_first_access (fun _ => none) "2026-01-01" 0 rfl).2.1,
   (getDailyLog_first_access (fun _ => none) "2026-01-01" 0 rfl).2.2.2.1⟩

/-- C10: the store update `{...prev, [newLog.date]: newLog}` stores the new
log under its own date and leaves the entry under every other date exactly
unchanged. -/
theorem updateLog_frame (logs : LogStore) (newLog : DailyLog) :
    updateLog logs newLog newLog.date = some newLog ∧
    ∀ d : String, d ≠ newLog.date → updateLog logs newLog d = logs d := by
  constructor
  · simp [updateLog]
  · intro d hd
    simp [updateLog, hd]

/-- C10 witness: updating an empty store with a log dated 2026-02-02 stores it
there and leaves 2026-02-03 unchanged (absent). -/
theorem updateLog_frame_witness :
    updateLog (fun _ => none) demoFrameLog demoFrameLog.date = some demoFrameLog ∧
    updateLog (fun _ => none) demoFrameLog "2026-02-03" = none :=
  ⟨(updateLog_frame (fun _ => none) demoFrameLog).1,
   (updateLog_frame (fun _ => none) demoFrameLog).2 "2026-02-03" (by decide)⟩

end Helper
